import Mathlib

/-!
Verification development for the PDF extraction pipeline
(`src/extractor.py`).

The Python code is shallowly embedded: Python `str` values are modelled
as `List Char` (with `String` wrappers at API boundaries), Python dicts
with declaration order as ordered association lists, fallible code as
`Except`, and the external model service as an explicit response
argument.  Template files on disk are external configuration, so the
template loader is a total function parameter `load`.  All ASCII string
operations (`lower`, `strip`, `splitlines`, `startswith`, `in`) are
modelled character by character after CPython's semantics.
-/

namespace Extractor

/-! ### Python string primitives -/

/-- Characters stripped by Python `str.strip()`: the code points on
which `str.isspace()` holds. -/
def isPyWs (c : Char) : Bool :=
  c = ' ' || c = '\t' || c = '\n' || c = '\x0b' || c = '\x0c' || c = '\x0d' ||
  c = '\x1c' || c = '\x1d' || c = '\x1e' || c = '\x1f' || c = '\x85' ||
  c = '\xa0' || c = '\u1680' || ('\u2000' ≤ c && c ≤ '\u200a') ||
  c = '\u2028' || c = '\u2029' || c = '\u202f' || c = '\u205f' || c = '\u3000'

/-- Model of Python `str.lstrip()`. -/
def pyLStrip (cs : List Char) : List Char := cs.dropWhile isPyWs

/-- Model of Python `str.rstrip()`. -/
def pyRStrip (cs : List Char) : List Char :=
  ((cs.reverse.dropWhile isPyWs)).reverse

/-- Model of Python `str.strip()`. -/
def pyStrip (cs : List Char) : List Char := pyLStrip (pyRStrip cs)

/-- Characters treated as line boundaries by Python `str.splitlines()`
(including NEL and the Unicode line and paragraph separators; a CRLF
pair is handled as one boundary in `pySplitlines`). -/
def isLineBreak (c : Char) : Bool :=
  c = '\n' || c = '\x0d' || c = '\x0b' || c = '\x0c' ||
  c = '\x1c' || c = '\x1d' || c = '\x1e' || c = '\x85' ||
  c = '\u2028' || c = '\u2029'

/-- Worker for `pySplitlines`: `skipLF` records that the previous
character was a carriage return whose line break was already emitted,
so an immediately following line feed is swallowed (CRLF is one
boundary). -/
def pslAux : Bool → List Char → List (List Char)
  | _, [] => []
  | skipLF, c :: rest =>
    if skipLF ∧ c = '\n' then pslAux false rest
    else if c = '\x0d' then [] :: pslAux true rest
    else if isLineBreak c then [] :: pslAux false rest
    else
      match pslAux false rest with
      | [] => [[c]]
      | l :: ls => (c :: l) :: ls

/-- Model of Python `str.splitlines()`: split at line boundaries, treat
`\r\n` as a single boundary, and do not emit a trailing empty line when
the text ends with a boundary. -/
def pySplitlines (cs : List Char) : List (List Char) := pslAux false cs

/-- Model of `"\n".join(lines)`. -/
def pyJoinNL : List (List Char) → List Char
  | [] => []
  | [l] => l
  | l :: ls => l ++ '\n' :: pyJoinNL ls

/-- Model of Python `os.path.basename` on POSIX: the suffix after the
last `/`. -/
def pyBasename (cs : List Char) : List Char :=
  ((cs.reverse.takeWhile (fun c => c ≠ '/'))).reverse

/-- Model of Python `str.lower()` restricted to ASCII (all registry
keywords and the filenames of interest are ASCII). -/
def pyLower (cs : List Char) : List Char := cs.map Char.toLower

/-- Model of Python's substring test `needle in hay`. -/
def isSubstr (needle : List Char) : List Char → Bool
  | [] => needle.isEmpty
  | c :: rest => needle.isPrefixOf (c :: rest) || isSubstr needle rest

/-! ### Template registry (`TEMPLATE_REGISTRY`, declaration order) -/

/-- One registry entry: filename keyword, document type label, and
template file reference. -/
structure TemplateEntry where
  keyword : String
  document_type : String
  template_file : String
deriving DecidableEq, Repr

/-- The registry of `src/extractor.py`, as an ordered list preserving
Python dict insertion order. -/
def TEMPLATE_REGISTRY : List TemplateEntry := [
  ⟨"i129", "USCIS Form I-129 H-1B Petition", "i129_h1b_petition.json"⟩,
  ⟨"i94", "Form I-94 Arrival/Departure Record", "i_94.json"⟩,
  ⟨"i-94", "Form I-94 Arrival/Departure Record", "i_94.json"⟩,
  ⟨"i20", "Form I-20 Certificate of Eligibility", "proof_of_in_country_status.json"⟩,
  ⟨"i-20", "Form I-20 Certificate of Eligibility", "proof_of_in_country_status.json"⟩,
  ⟨"passport", "Passport", "passport.json"⟩,
  ⟨"visa", "US Visa", "us_visa.json"⟩,
  ⟨"transcript", "Academic Transcript", "school_transcripts.json"⟩,
  ⟨"diploma", "Diploma", "diplomas.json"⟩,
  ⟨"employment letter", "Employment Letter", "employment_letter.json"⟩,
  ⟨"offer letter", "Employment Letter", "employment_letter.json"⟩,
  ⟨"offer-letter", "Employment Letter", "employment_letter.json"⟩,
  ⟨"offer_letter", "Employment Letter", "employment_letter.json"⟩,
  ⟨"employment_letter", "Employment Letter", "employment_letter.json"⟩,
  ⟨"employment", "Employment Letter", "employment_letter.json"⟩,
  ⟨"resume", "Resume/CV", "resume.json"⟩,
  ⟨"cv", "Resume/CV", "resume.json"⟩,
  ⟨"fein", "Corporate Tax Returns", "corporate_tax_returns.json"⟩,
  ⟨"cp575", "Corporate Tax Returns", "corporate_tax_returns.json"⟩,
  ⟨"tax", "Corporate Tax Returns", "corporate_tax_returns.json"⟩,
  ⟨"marriage", "Marriage Certificate", "marriage_certificate.json"⟩,
  ⟨"marriage_certificate", "Marriage Certificate", "marriage_certificate.json"⟩,
  ⟨"proof", "Proof of In-Country Status", "proof_of_in_country_status.json"⟩]

/-- The allow-list `ALLOWED_MODELS`. -/
def ALLOWED_MODELS : List String := [
  "default",
  "gpt-4.1-mini",
  "gpt-4.1",
  "gpt-4o-mini",
  "gpt-4o",
  "gpt-4.1-2025-04-14",
  "gpt-4.1-mini-2025-04-14",
  "gpt-5-2025-08-07",
  "gpt-5-mini-2025-08-07"]

/-! ### Error taxonomy

Errors are modelled structurally, keeping the data that the Python
`ValueError` / `RuntimeError` messages interpolate. -/

/-- Typed failures of the pipeline, carrying the data interpolated into
the corresponding Python exception messages. -/
inductive ExtractorError where
  /-- `ValueError` from `infer_template_from_filename`: lowercased
  basename plus the full declared keyword list. -/
  | classificationFailed (basename : String) (keywords : List String)
  /-- `ValueError` from `call_openai_extract` model validation: the
  requested alias plus the allow-list. -/
  | unsupportedModel (requested : String) (allowed : List String)
  /-- `ValueError`: empty model response after stripping. -/
  | emptyResponse
  /-- `ValueError`: JSON decode failure, carrying the parser diagnostic
  and the first-500-character snippet of the offending text. -/
  | malformedJSON (diag : String) (snippet : String)
  /-- `RuntimeError` from the entrypoint when no images were produced. -/
  | noImages
deriving DecidableEq, Repr

/-! ### Filename classifier (`infer_template_from_filename`) -/

/-- The lowercased basename computed at the top of
`infer_template_from_filename`. -/
def lowered_basename (filename : String) : List Char :=
  pyLower (pyBasename filename.data)

/-- Model of `infer_template_from_filename`.  Template loading reads
external configuration files, so it is abstracted as the total function
parameter `load` applied to the entry's `template_file`; the scan
returns the first declared entry whose keyword is a substring of the
lowercased basename. -/
def infer_template_from_filename {α : Type} (load : String → α)
    (filename : String) : Except ExtractorError (String × α) :=
  match TEMPLATE_REGISTRY.find?
      (fun e => isSubstr e.keyword.data (lowered_basename filename)) with
  | some e => .ok (e.document_type, load e.template_file)
  | none =>
    .error (.classificationFailed ⟨lowered_basename filename⟩
      (TEMPLATE_REGISTRY.map (·.keyword)))

/-! ### Rasterizer (`pdf_bytes_to_base64_images`)

A valid opened PDF document is modelled as the list of its pages, with
page contents abstract (`α`).  Rendering, JPEG encoding and base64
encoding happen in external native libraries, so a produced image is
modelled by the data the code feeds them: the page content and the
chosen `scale` and `quality` parameters. -/

/-- One emitted page image: which page was rendered and with which
adaptive parameters. -/
structure RenderedImage (α : Type) where
  page : α
  scale : ℚ
  quality : ℕ
deriving DecidableEq, Repr

/-- The adaptive scale/quality choice of `pdf_bytes_to_base64_images`,
as a function of the effective page count. -/
def chooseRenderParams (page_count : ℕ) : ℚ × ℕ :=
  if page_count ≤ 2 then (4.17, 80)
  else if page_count ≤ 10 then (2.0, 60)
  else (1.5, 60)

/-- The effective page count: `min(total_pages, max_pages)` when
`max_pages` is a positive bound, otherwise (None or nonpositive) the
full page count. -/
def effectivePageCount (total_pages : ℕ) (max_pages : Option ℤ) : ℕ :=
  match max_pages with
  | some m => if m > 0 then min total_pages m.toNat else total_pages
  | none => total_pages

/-- Model of `pdf_bytes_to_base64_images` on an already-opened valid
document: render pages `0 .. page_count - 1` in order with the chosen
parameters. -/
def pdf_bytes_to_base64_images {α : Type} (pdf : List α)
    (max_pages : Option ℤ) : List (RenderedImage α) :=
  let page_count := effectivePageCount pdf.length max_pages
  let params := chooseRenderParams page_count
  (pdf.take page_count).map (fun p => ⟨p, params.1, params.2⟩)

/-- A call of `pdf_bytes_to_base64_images` that leaves `max_pages` at
its Python default value `10`. -/
def pdf_bytes_to_base64_images_default {α : Type} (pdf : List α) :
    List (RenderedImage α) :=
  pdf_bytes_to_base64_images pdf (some 10)

/-! #### Resource-accounting model of the rasterizer

For the handle-release claim, the same function is embedded a second
time with an explicit ledger of native handles and oracles saying which
page operations raise.  `page.render(...).to_pil()` may raise
(`renderFails`), as may `pil_image.save(...)` / re-encoding
(`saveFails`).  The PIL image and the byte buffer of page `i` are
opened between those two points; `buffered.close()` and
`pil_image.close()` run only on the non-raising path, while `pdf.close()`
runs in the `finally` block on every path.  Page handles obtained by
`pdf[page_index]` are owned by the document and released with it. -/

/-- Handles tracked by the resource model of the rasterizer. -/
inductive RasterHandle where
  /-- The `pdfium.PdfDocument` handle. -/
  | doc
  /-- The PIL image of page `i`. -/
  | pil (i : ℕ)
  /-- The `io.BytesIO` buffer of page `i`. -/
  | buf (i : ℕ)
deriving DecidableEq, Repr

/-- Result of one execution of the rasterizer body: the images (or an
exception), and the handles still open when control leaves the
function. -/
structure RasterRun (α : Type) where
  result : Except Unit (List (RenderedImage α))
  leaked : List RasterHandle
deriving Repr

/-- The page loop of `pdf_bytes_to_base64_images` with handle
accounting.  On a successful iteration the buffer and PIL handles are
closed before the next page; when `save` raises, both stay open and the
exception propagates. -/
def rasterLoop {α : Type} (scale : ℚ) (quality : ℕ)
    (renderFails saveFails : ℕ → Bool) (idx : ℕ) :
    List α → Except Unit (List (RenderedImage α)) × List RasterHandle
  | [] => (.ok [], [])
  | p :: rest =>
    if renderFails idx then
      (.error (), [])
    else if saveFails idx then
      (.error (), [.pil idx, .buf idx])
    else
      match rasterLoop scale quality renderFails saveFails (idx + 1) rest with
      | (.ok imgs, hs) => (.ok (⟨p, scale, quality⟩ :: imgs), hs)
      | (.error e, hs) => (.error e, hs)

/-- Full execution of `pdf_bytes_to_base64_images` with handle
accounting.  The `finally` block closes the document handle on every
exit path, so `.doc` never remains open; any handles leaked by the loop
remain open. -/
def rasterExec {α : Type} (pdf : List α) (max_pages : Option ℤ)
    (renderFails saveFails : ℕ → Bool) : RasterRun α :=
  let page_count := effectivePageCount pdf.length max_pages
  let params := chooseRenderParams page_count
  let run := rasterLoop params.1 params.2 renderFails saveFails 0
    (pdf.take page_count)
  ⟨run.1, run.2⟩

/-! ### Model of `json.loads`

Strict JSON as accepted by Python's `json.loads`: the four whitespace
characters, the full number grammar, strings with escape decoding and
rejection of raw control characters, and the standard diagnostics
(source positions omitted from the messages).  Numbers are kept as
their validated lexemes, since their numeric interpretation (Python
`int`/`float`) plays no role in any claim. -/

/-- JSON values as produced by the modelled `json.loads`. -/
inductive Json where
  | null
  | bool (b : Bool)
  | num (lexeme : String)
  | str (s : String)
  | arr (items : List Json)
  | obj (members : List (String × Json))

/-- Whitespace skipped between JSON tokens (`json.loads` set). -/
def isJsonWs (c : Char) : Bool :=
  c = ' ' || c = '\t' || c = '\n' || c = '\x0d'

/-- Skip inter-token whitespace. -/
def skipJsonWs (cs : List Char) : List Char := cs.dropWhile isJsonWs

/-- Numeric value of a hex digit, if any. -/
def hexVal? (c : Char) : Option ℕ :=
  if '0' ≤ c ∧ c ≤ '9' then some (c.toNat - '0'.toNat)
  else if 'a' ≤ c ∧ c ≤ 'f' then some (c.toNat - 'a'.toNat + 10)
  else if 'A' ≤ c ∧ c ≤ 'F' then some (c.toNat - 'A'.toNat + 10)
  else none

/-- Body of a JSON string literal, after the opening quote: decode
escapes, reject raw control characters, and return the decoded
characters together with the input after the closing quote.
(Surrogate-pair recombination of `\uXXXX` escapes is not modelled.) -/
def parseStringBody : List Char → Except String (List Char × List Char)
  | [] => .error "Unterminated string starting at"
  | '"' :: rest => .ok ([], rest)
  | '\\' :: 'u' :: h1 :: h2 :: h3 :: h4 :: rest =>
    match hexVal? h1, hexVal? h2, hexVal? h3, hexVal? h4 with
    | some a, some b, some c, some d =>
      match parseStringBody rest with
      | .ok (s, r) => .ok (Char.ofNat (((a * 16 + b) * 16 + c) * 16 + d) :: s, r)
      | .error e => .error e
    | _, _, _, _ => .error "Invalid \\uXXXX escape"
  | '\\' :: e :: rest =>
    let dec : Option Char :=
      if e = '"' then some '"'
      else if e = '\\' then some '\\'
      else if e = '/' then some '/'
      else if e = 'b' then some '\x08'
      else if e = 'f' then some '\x0c'
      else if e = 'n' then some '\n'
      else if e = 'r' then some '\x0d'
      else if e = 't' then some '\t'
      else none
    match dec with
    | some c =>
      match parseStringBody rest with
      | .ok (s, r) => .ok (c :: s, r)
      | .error e => .error e
    | none => .error "Invalid \\escape"
  | c :: rest =>
    if c.toNat < 0x20 then .error "Invalid control character at"
    else
      match parseStringBody rest with
      | .ok (s, r) => .ok (c :: s, r)
      | .error e => .error e

/-- The JSON number grammar with maximal munch, mirroring the regular
expression used by Python's `json` scanner: returns the matched lexeme
and the rest of the input. -/
def parseNumber (cs : List Char) : Except String (List Char × List Char) :=
  let (sign, cs1) :=
    match cs with
    | '-' :: r => (['-'], r)
    | _ => (([] : List Char), cs)
  match cs1 with
  | '0' :: r1 =>
    .ok (numTail (sign ++ ['0']) r1)
  | c :: r1 =>
    if c.isDigit then
      let (ds, r2) := r1.span Char.isDigit
      .ok (numTail (sign ++ c :: ds) r2)
    else .error "Expecting value"
  | [] => .error "Expecting value"
where
  /-- Optional fraction and exponent parts, each all-or-nothing. -/
  numTail (intPart : List Char) (cs : List Char) : List Char × List Char :=
    let (fracPart, cs2) :=
      match cs with
      | '.' :: d :: r =>
        if d.isDigit then
          let (ds, r2) := r.span Char.isDigit
          ('.' :: d :: ds, r2)
        else (([] : List Char), cs)
      | _ => (([] : List Char), cs)
    let (expPart, cs3) :=
      match cs2 with
      | e :: r =>
        if e = 'e' ∨ e = 'E' then
          match r with
          | s :: d :: r2 =>
            if (s = '+' ∨ s = '-') ∧ d.isDigit then
              let (ds, r3) := r2.span Char.isDigit
              (e :: s :: d :: ds, r3)
            else if s.isDigit then
              let (ds, r3) := (d :: r2).span Char.isDigit
              (e :: s :: ds, r3)
            else (([] : List Char), cs2)
          | [s] =>
            if s.isDigit then ([e, s], ([] : List Char))
            else (([] : List Char), cs2)
          | [] => (([] : List Char), cs2)
        else (([] : List Char), cs2)
      | [] => (([] : List Char), cs2)
    (intPart ++ fracPart ++ expPart, cs3)

mutual

/-- Parse one JSON value (fuel-indexed recursion; the driver supplies
ample fuel). -/
def parseValue : ℕ → List Char → Except String (Json × List Char)
  | 0, _ => .error "Expecting value"
  | fuel + 1, cs =>
    match skipJsonWs cs with
    | [] => .error "Expecting value"
    | c :: rest =>
      if c = '\x7b' then
        match skipJsonWs rest with
        | '\x7d' :: r2 => .ok (.obj [], r2)
        | _ => parseMembers fuel rest []
      else if c = '[' then
        match skipJsonWs rest with
        | ']' :: r2 => .ok (.arr [], r2)
        | _ => parseElements fuel rest []
      else if c = '"' then
        match parseStringBody rest with
        | .ok (s, r2) => .ok (.str ⟨s⟩, r2)
        | .error e => .error e
      else if c = 't' then
        if ['r', 'u', 'e'].isPrefixOf rest then .ok (.bool true, rest.drop 3)
        else .error "Expecting value"
      else if c = 'f' then
        if ['a', 'l', 's', 'e'].isPrefixOf rest then .ok (.bool false, rest.drop 4)
        else .error "Expecting value"
      else if c = 'n' then
        if ['u', 'l', 'l'].isPrefixOf rest then .ok (.null, rest.drop 3)
        else .error "Expecting value"
      else if c = '-' || c.isDigit then
        match parseNumber (c :: rest) with
        | .ok (lexeme, r2) => .ok (.num ⟨lexeme⟩, r2)
        | .error e => .error e
      else .error "Expecting value"

/-- Members of a JSON object, positioned before a (mandatory) next
`"key": value` pair. -/
def parseMembers : ℕ → List Char → List (String × Json) →
    Except String (Json × List Char)
  | 0, _, _ => .error "Expecting value"
  | fuel + 1, cs, acc =>
    match skipJsonWs cs with
    | '"' :: r1 =>
      match parseStringBody r1 with
      | .error e => .error e
      | .ok (key, r2) =>
        match skipJsonWs r2 with
        | ':' :: r3 =>
          match parseValue fuel r3 with
          | .error e => .error e
          | .ok (v, r4) =>
            match skipJsonWs r4 with
            | ',' :: r5 => parseMembers fuel r5 (acc ++ [(⟨key⟩, v)])
            | '\x7d' :: r5 => .ok (.obj (acc ++ [(⟨key⟩, v)]), r5)
            | _ => .error "Expecting ',' delimiter"
        | _ => .error "Expecting ':' delimiter"
    | _ => .error "Expecting property name enclosed in double quotes"

/-- Elements of a JSON array, positioned before a (mandatory) next
element. -/
def parseElements : ℕ → List Char → List Json →
    Except String (Json × List Char)
  | 0, _, _ => .error "Expecting value"
  | fuel + 1, cs, acc =>
    match parseValue fuel cs with
    | .error e => .error e
    | .ok (v, r1) =>
      match skipJsonWs r1 with
      | ',' :: r2 => parseElements fuel r2 (acc ++ [v])
      | ']' :: r2 => .ok (.arr (acc ++ [v]), r2)
      | _ => .error "Expecting ',' delimiter"

end

/-- Model of `json.loads` on a character list: parse one value and
insist that only whitespace follows. -/
def jsonParseL (cs : List Char) : Except String Json :=
  match parseValue (cs.length + 1) cs with
  | .error e => .error e
  | .ok (v, rest) =>
    match skipJsonWs rest with
    | [] => .ok v
    | _ => .error "Extra data"

/-! ### Response parsing and model gateway (`call_openai_extract`)

The network call `_invoke_openai` is external I/O; the model's raw
textual output (after `_extract_text_from_response`) is therefore an
explicit argument `rawResponse`, and "a model invocation is made" is
expressed as dependence of the result on that argument. -/

/-- The three-backtick fence marker. -/
def FENCE : List Char := "```".data

/-- Drop the opening fence line: `if lines and
lines[0].lstrip().startswith("```"): lines = lines[1:]`. -/
def dropOpenFence (lines : List (List Char)) : List (List Char) :=
  match lines with
  | [] => []
  | l :: rest => if FENCE.isPrefixOf (pyLStrip l) then rest else l :: rest

/-- Drop the closing fence line: `if lines and
lines[-1].strip().startswith("```"): lines = lines[:-1]`. -/
def dropCloseFence (lines : List (List Char)) : List (List Char) :=
  match lines.getLast? with
  | none => lines
  | some l => if FENCE.isPrefixOf (pyStrip l) then lines.dropLast else lines

/-- The text handed to `json.loads`: strip, then remove an optional
markdown fence and re-strip. -/
def preprocessResponse (raw : List Char) : List Char :=
  let json_str := pyStrip raw
  if FENCE.isPrefixOf json_str then
    pyStrip (pyJoinNL (dropCloseFence (dropOpenFence (pySplitlines json_str))))
  else json_str

/-- The response-parsing tail of `call_openai_extract`: fence
stripping, the emptiness check, and strict JSON parsing with the
500-character snippet on failure. -/
def parse_model_response (raw : List Char) : Except ExtractorError Json :=
  let json_str := preprocessResponse raw
  if json_str.isEmpty then
    .error .emptyResponse
  else
    match jsonParseL json_str with
    | .ok v => .ok v
    | .error e => .error (.malformedJSON e ⟨json_str.take 500⟩)

/-- Resolution of the sentinel alias performed before validation:
`resolved_model = DEFAULT_MODEL if model == "default" else model`.
`DEFAULT_MODEL` comes from the environment, so it is a parameter. -/
def resolveModel (defaultModel model : String) : String :=
  if model = "default" then defaultModel else model

/-- Model of `call_openai_extract`: validate the resolved alias against
the allow-list, then (prompt construction and the network call being
external) parse the model's raw text `rawResponse`. -/
def call_openai_extract {α : Type} (document_type : String) (template : α)
    (images : List (RenderedImage α)) (defaultModel model : String)
    (rawResponse : List Char) : Except ExtractorError Json :=
  let resolved_model := resolveModel defaultModel model
  if resolved_model ∈ ALLOWED_MODELS then
    parse_model_response rawResponse
  else
    .error (.unsupportedModel model ALLOWED_MODELS)

/-! ### Entrypoint (`extract_using_openai_from_pdf_bytes`) -/

/-- Model of `extract_using_openai_from_pdf_bytes`: classify by
filename, rasterize, reject an empty image list, then call the
gateway. -/
def extract_using_openai_from_pdf_bytes {α : Type} (load : String → α)
    (pdf : List α) (filename : String) (max_pages : Option ℤ)
    (defaultModel model : String) (rawResponse : List Char) :
    Except ExtractorError Json :=
  match infer_template_from_filename load filename with
  | .error e => .error e
  | .ok (document_type, template) =>
    let images := pdf_bytes_to_base64_images pdf max_pages
    if images.isEmpty then .error .noImages
    else call_openai_extract document_type template images defaultModel model
      rawResponse

/-! ### Helper lemmas -/

/-- `List.find?` returns the element at the first index satisfying the
predicate. -/
theorem find?_eq_of_first_match {β : Type} (p : β → Bool) :
    ∀ (l : List β) (i : ℕ) (hi : i < l.length),
      p (l.get ⟨i, hi⟩) = true →
      (∀ j (hj : j < i), p (l.get ⟨j, Nat.lt_trans hj hi⟩) = false) →
      l.find? p = some (l.get ⟨i, hi⟩)
  | a :: l, 0, _, hp, _ => List.find?_cons_of_pos _ hp
  | a :: l, i + 1, hi, hp, hmin => by
    have ha : p a = false := hmin 0 (Nat.succ_pos i)
    have ih := find?_eq_of_first_match p l i (Nat.lt_of_succ_lt_succ hi) hp
      (fun j hj => hmin (j + 1) (Nat.succ_lt_succ hj))
    rw [List.find?_cons_of_neg _ (by simp [ha])]
    exact ih

/-- Unfolding of the classifier on the first declared match. -/
theorem infer_ok_of_first_match {α : Type} (load : String → α)
    (filename : String) (i : ℕ) (hi : i < TEMPLATE_REGISTRY.length)
    (hmatch : isSubstr (TEMPLATE_REGISTRY.get ⟨i, hi⟩).keyword.data
      (lowered_basename filename) = true)
    (hfirst : ∀ j (hj : j < i),
      isSubstr (TEMPLATE_REGISTRY.get ⟨j, Nat.lt_trans hj hi⟩).keyword.data
        (lowered_basename filename) = false) :
    infer_template_from_filename load filename =
      .ok ((TEMPLATE_REGISTRY.get ⟨i, hi⟩).document_type,
        load (TEMPLATE_REGISTRY.get ⟨i, hi⟩).template_file) := by
  unfold infer_template_from_filename
  rw [find?_eq_of_first_match _ TEMPLATE_REGISTRY i hi hmatch hfirst]

/-- Unfolding of the classifier when no keyword matches. -/
theorem infer_error_of_no_match {α : Type} (load : String → α)
    (filename : String)
    (h : ∀ e ∈ TEMPLATE_REGISTRY,
      isSubstr e.keyword.data (lowered_basename filename) = false) :
    infer_template_from_filename load filename =
      .error (.classificationFailed ⟨lowered_basename filename⟩
        (TEMPLATE_REGISTRY.map (·.keyword))) := by
  unfold infer_template_from_filename
  rw [List.find?_eq_none.mpr (by simpa using h)]

/-! ### C1: first declared keyword match wins -/

/-- C1: if entry `i` of the registry (in declaration order) matches the
lowercased basename and no earlier declared entry matches, the
classifier returns exactly entry `i`'s document type and template; in
particular, with several matching keywords the earliest declared entry
wins. -/
theorem classify_first_declared_match {α : Type} (load : String → α)
    (filename : String) (i : ℕ) (hi : i < TEMPLATE_REGISTRY.length)
    (hmatch : isSubstr (TEMPLATE_REGISTRY.get ⟨i, hi⟩).keyword.data
      (lowered_basename filename) = true)
    (hfirst : ∀ j (hj : j < i),
      isSubstr (TEMPLATE_REGISTRY.get ⟨j, Nat.lt_trans hj hi⟩).keyword.data
        (lowered_basename filename) = false) :
    infer_template_from_filename load filename =
      .ok ((TEMPLATE_REGISTRY.get ⟨i, hi⟩).document_type,
        load (TEMPLATE_REGISTRY.get ⟨i, hi⟩).template_file) :=
  infer_ok_of_first_match load filename i hi hmatch hfirst

/-- Witness for C1: `employment_tax_2023.pdf` matches the declared
keywords `employment` (index 14) and `tax` (index 19); the earlier one,
`employment`, wins. -/
theorem classify_first_declared_match_witness :
    infer_template_from_filename id "employment_tax_2023.pdf" =
      .ok ((TEMPLATE_REGISTRY.get ⟨14, by decide⟩).document_type,
        id (TEMPLATE_REGISTRY.get ⟨14, by decide⟩).template_file) :=
  classify_first_declared_match id "employment_tax_2023.pdf" 14 (by decide)
    (by decide) (by decide)

/-! ### C7: no match lists every declared keyword -/

/-- C7: when no declared keyword is a substring of the lowercased
basename, classification fails with an error carrying the lowercased
basename and the list of all declared keywords, in which every declared
keyword occurs. -/
theorem classify_no_match_error {α : Type} (load : String → α)
    (filename : String)
    (h : ∀ e ∈ TEMPLATE_REGISTRY,
      isSubstr e.keyword.data (lowered_basename filename) = false) :
    infer_template_from_filename load filename =
      .error (.classificationFailed ⟨lowered_basename filename⟩
        (TEMPLATE_REGISTRY.map (·.keyword))) ∧
    ∀ e ∈ TEMPLATE_REGISTRY, e.keyword ∈ TEMPLATE_REGISTRY.map (·.keyword) :=
  ⟨infer_error_of_no_match load filename h,
   fun e he => List.mem_map.mpr ⟨e, he, rfl⟩⟩

/-- Witness for C7 at the concrete filename `zzz.pdf`, which contains
no declared keyword. -/
theorem classify_no_match_error_witness :
    infer_template_from_filename id "zzz.pdf" =
      .error (.classificationFailed ⟨lowered_basename "zzz.pdf"⟩
        (TEMPLATE_REGISTRY.map (·.keyword))) :=
  (classify_no_match_error id "zzz.pdf" (by decide)).1

/-! ### C3: the three fidelity tiers -/

/-- C3: parameter selection is a pure function of the effective page
count with exactly three tiers — at most 2 pages gives scale `4.17`
and quality `80`; 3 through 10 pages gives scale `2.0` and quality
`60`; more than 10 pages gives scale `1.5` and quality `60`. -/
theorem render_params_three_tiers (n : ℕ) :
    (n ≤ 2 → chooseRenderParams n = (4.17, 80)) ∧
    (3 ≤ n ∧ n ≤ 10 → chooseRenderParams n = (2.0, 60)) ∧
    (10 < n → chooseRenderParams n = (1.5, 60)) := by
  refine ⟨fun h => ?_, fun h => ?_, fun h => ?_⟩ <;>
    unfold chooseRenderParams
  · rw [if_pos h]
  · rw [if_neg (by omega), if_pos h.2]
  · rw [if_neg (by omega), if_neg (by omega)]

/-- Witness for C3 at the tier boundaries 2, 10 and 11. -/
theorem render_params_three_tiers_witness :
    chooseRenderParams 2 = (4.17, 80) ∧ chooseRenderParams 10 = (2.0, 60) ∧
      chooseRenderParams 11 = (1.5, 60) :=
  ⟨(render_params_three_tiers 2).1 (by decide),
   (render_params_three_tiers 10).2.1 (by decide),
   (render_params_three_tiers 11).2.2 (by decide)⟩

/-! ### C2: page count and page order of the rasterizer -/

/-- C2 (amended): with a positive `max_pages` bound `m` the rasterizer
emits exactly `min(total_pages, m)` images; with a nonpositive bound or
`None` it emits all pages; with `max_pages` left at its default it
emits `min(total_pages, 10)` images (not necessarily all pages); and in
every case the emitted images are pages `0 .. N-1` in page order. -/
theorem rasterize_page_count_and_order {α : Type} (pdf : List α) (m : ℤ) :
    (0 < m →
      (pdf_bytes_to_base64_images pdf (some m)).length = min pdf.length m.toNat) ∧
    (m ≤ 0 → (pdf_bytes_to_base64_images pdf (some m)).length = pdf.length) ∧
    (pdf_bytes_to_base64_images pdf none).length = pdf.length ∧
    (pdf_bytes_to_base64_images_default pdf).length = min pdf.length 10 ∧
    (∀ mp : Option ℤ, (pdf_bytes_to_base64_images pdf mp).map RenderedImage.page
      = pdf.take (effectivePageCount pdf.length mp)) := by
  refine ⟨fun h => ?_, fun h => ?_, ?_, ?_, fun mp => ?_⟩
  · simp only [pdf_bytes_to_base64_images, pdf_bytes_to_base64_images_default,
      effectivePageCount, List.length_map, List.length_take]
    rw [if_pos h]
    omega
  · simp only [pdf_bytes_to_base64_images, effectivePageCount,
      List.length_map, List.length_take]
    rw [if_neg (by omega)]
    omega
  · simp only [pdf_bytes_to_base64_images, effectivePageCount,
      List.length_map, List.length_take]
    omega
  · simp only [pdf_bytes_to_base64_images, pdf_bytes_to_base64_images_default,
      effectivePageCount, List.length_map, List.length_take]
    rw [if_pos (by omega)]
    omega
  · unfold pdf_bytes_to_base64_images
    rw [List.map_map]
    exact List.map_id _

/-- Witness for C2's amended statement: a 5-page document with
`max_pages = 3` yields `min 5 3 = 3` images. -/
theorem rasterize_page_count_witness :
    (pdf_bytes_to_base64_images (List.range 5) (some 3)).length =
      min (List.range 5).length (3 : ℤ).toNat :=
  (rasterize_page_count_and_order (List.range 5) 3).1 (by decide)

/-- Counterexample to C2 as stated: with `max_pages` absent (Python
default `10`) a 12-page document yields 10 images, not one per page for
all 12 pages. -/
theorem rasterize_default_not_all_pages :
    (pdf_bytes_to_base64_images_default (List.range 12)).length = 10 ∧
    ¬ (pdf_bytes_to_base64_images_default (List.range 12)).length =
      (List.range 12).length := by
  refine ⟨by decide, by decide⟩

/-! ### C5: model allow-list validation precedes any invocation -/

/-- C5: the sentinel `default` resolves to the configured default
before validation, and when the resolved alias is not in the allow-list
the gateway fails with the UnsupportedModel error naming the requested
alias and the whole allow-list, with the same outcome for every
possible model response — no invocation result is consulted. -/
theorem gateway_unsupported_model {α : Type} (document_type : String)
    (template : α) (images : List (RenderedImage α))
    (defaultModel model : String)
    (h : resolveModel defaultModel model ∉ ALLOWED_MODELS) :
    resolveModel defaultModel "default" = defaultModel ∧
    ∀ rawResponse rawResponse₂ : List Char,
      call_openai_extract document_type template images defaultModel model
          rawResponse =
        .error (.unsupportedModel model ALLOWED_MODELS) ∧
      call_openai_extract document_type template images defaultModel model
          rawResponse =
        call_openai_extract document_type template images defaultModel model
          rawResponse₂ := by
  refine ⟨by simp [resolveModel], fun r₁ r₂ => ?_⟩
  unfold call_openai_extract
  rw [if_neg h, if_neg h]
  exact ⟨rfl, rfl⟩

/-- Witness for C5: the unknown alias `gpt-3.5-turbo` is rejected with
the allow-list, independently of the response text. -/
theorem gateway_unsupported_model_witness :
    call_openai_extract "Passport" "tmpl" ([] : List (RenderedImage String))
        "gpt-4.1-mini" "gpt-3.5-turbo" "resp".data =
      .error (.unsupportedModel "gpt-3.5-turbo" ALLOWED_MODELS) :=
  ((gateway_unsupported_model "Passport" "tmpl" [] "gpt-4.1-mini"
    "gpt-3.5-turbo" (by decide)).2 "resp".data "x".data).1

/-! ### C10: classification precedes rasterization in the entrypoint -/

/-- C10: when no registry keyword matches the filename, the entrypoint
fails with the classification error for every PDF argument, and its
outcome does not depend on the PDF at all — the document is never
consulted. -/
theorem entrypoint_classification_precedes_rasterization {α : Type}
    (load : String → α) (filename : String)
    (h : ∀ e ∈ TEMPLATE_REGISTRY,
      isSubstr e.keyword.data (lowered_basename filename) = false)
    (pdf pdf₂ : List α) (max_pages : Option ℤ)
    (defaultModel model : String) (rawResponse : List Char) :
    extract_using_openai_from_pdf_bytes load pdf filename max_pages
        defaultModel model rawResponse =
      .error (.classificationFailed ⟨lowered_basename filename⟩
        (TEMPLATE_REGISTRY.map (·.keyword))) ∧
    extract_using_openai_from_pdf_bytes load pdf filename max_pages
        defaultModel model rawResponse =
      extract_using_openai_from_pdf_bytes load pdf₂ filename max_pages
        defaultModel model rawResponse := by
  have hinf := infer_error_of_no_match load filename h
  unfold extract_using_openai_from_pdf_bytes
  rw [hinf]
  exact ⟨rfl, rfl⟩

/-- Witness for C10: `zzz.pdf` fails classification identically for two
different documents. -/
theorem entrypoint_classification_witness :
    extract_using_openai_from_pdf_bytes (fun _ => (0 : ℕ)) [0] "zzz.pdf"
        (some 10) "gpt-4.1-mini" "gpt-4.1-mini" "resp".data =
      .error (.classificationFailed ⟨lowered_basename "zzz.pdf"⟩
        (TEMPLATE_REGISTRY.map (·.keyword))) :=
  (entrypoint_classification_precedes_rasterization (fun _ => (0 : ℕ))
    "zzz.pdf" (by decide) [0] [1, 2] (some 10) "gpt-4.1-mini" "gpt-4.1-mini"
    "resp".data).1

/-! ### Lemmas on the Python string primitives -/

/-- `lstrip` is the identity when the first character is not
whitespace. -/
theorem pyLStrip_cons_of_not_ws {c : Char} (cs : List Char)
    (h : isPyWs c = false) : pyLStrip (c :: cs) = c :: cs := by
  simp [pyLStrip, List.dropWhile_cons, h]

/-- `rstrip` distributes over an append whose right part does not strip
to nothing. -/
theorem pyRStrip_append_of_ne (x y : List Char) (hy : pyRStrip y ≠ []) :
    pyRStrip (x ++ y) = x ++ pyRStrip y := by
  have h1 : (y.reverse.dropWhile isPyWs).isEmpty = false := by
    rcases h : y.reverse.dropWhile isPyWs with _ | ⟨a, l⟩
    · exact absurd (by simp [pyRStrip, h]) hy
    · rfl
  unfold pyRStrip
  rw [List.reverse_append, List.dropWhile_append, h1]
  simp

/-- `rstrip` over an append whose right part is pure whitespace. -/
theorem pyRStrip_append_all_ws (x y : List Char) (hy : pyRStrip y = []) :
    pyRStrip (x ++ y) = pyRStrip x := by
  have h1 : (y.reverse.dropWhile isPyWs).isEmpty = true := by
    have : (y.reverse.dropWhile isPyWs).reverse = [] := hy
    simpa [List.isEmpty_iff] using congrArg List.reverse this
  unfold pyRStrip
  rw [List.reverse_append, List.dropWhile_append, h1]
  simp

/-- `dropWhile` is idempotent. -/
theorem dropWhile_self_eq (p : α → Bool) (l : List α) :
    (l.dropWhile p).dropWhile p = l.dropWhile p := by
  rcases h : l.dropWhile p with _ | ⟨a, t⟩
  · rfl
  · have ha : p a = false := by
      have := List.head?_dropWhile_not p l
      rw [h] at this
      simpa using this
    simp [List.dropWhile_cons, ha]

/-- `rstrip` is idempotent. -/
theorem pyRStrip_idem (x : List Char) : pyRStrip (pyRStrip x) = pyRStrip x := by
  unfold pyRStrip
  rw [List.reverse_reverse, dropWhile_self_eq]

/-- `strip` ignores a previous `rstrip`. -/
theorem pyStrip_pyRStrip (x : List Char) : pyStrip (pyRStrip x) = pyStrip x := by
  unfold pyStrip
  rw [pyRStrip_idem]

/-- Characters surviving `rstrip` come from the original list. -/
theorem mem_pyRStrip {c : Char} {x : List Char} (h : c ∈ pyRStrip x) :
    c ∈ x := by
  unfold pyRStrip at h
  rw [List.mem_reverse] at h
  exact List.mem_reverse.mp (List.dropWhile_subset _ h)

/-! ### Lemmas about fence stripping -/

/-- `lstrip` keeps a fence-headed text unchanged. -/
theorem pyLStrip_fence_append (z : List Char) :
    pyLStrip (FENCE ++ z) = FENCE ++ z :=
  pyLStrip_cons_of_not_ws _ (by decide)

/-- A fence-headed text starts with the fence marker. -/
theorem fence_isPrefixOf_append (z : List Char) :
    FENCE.isPrefixOf (FENCE ++ z) = true := by
  simp [List.isPrefixOf_iff_prefix]

/-- `strip` on a fence-headed text only strips from the right. -/
theorem pyStrip_fence_append (a : List Char) :
    pyStrip (FENCE ++ a) = FENCE ++ pyRStrip a := by
  by_cases hy : pyRStrip a = []
  · rw [pyStrip, pyRStrip_append_all_ws _ _ hy, hy]
    rw [show pyRStrip FENCE = FENCE from rfl]
    simpa using pyLStrip_fence_append []
  · rw [pyStrip, pyRStrip_append_of_ne _ _ hy, pyLStrip_fence_append]

/-! ### Lemmas about `pySplitlines` and `pyJoinNL` -/

/-- Splitting at a non-CR line break consumes just that character. -/
theorem pySplitlines_cons_break {c : Char} (rest : List Char)
    (hb : isLineBreak c = true) (hc : c ≠ '\x0d') :
    pySplitlines (c :: rest) = [] :: pySplitlines rest := by
  unfold pySplitlines
  simp only [pslAux]
  rw [if_neg (by simp), if_neg (by simpa using hc), if_pos hb]

/-- Splitting at a non-break character extends the first line. -/
theorem pySplitlines_cons_nb {c : Char} (rest : List Char)
    (h : isLineBreak c = false) :
    pySplitlines (c :: rest) =
      match pySplitlines rest with
      | [] => [[c]]
      | l :: ls => (c :: l) :: ls := by
  have hc : c ≠ '\x0d' := by
    intro hEq
    subst hEq
    exact absurd h (by decide)
  unfold pySplitlines
  simp only [pslAux]
  rw [if_neg (by simp), if_neg (by simpa using hc), if_neg (by simp [h])]

/-- Splitting at a newline. -/
theorem pySplitlines_nl (rest : List Char) :
    pySplitlines ('\n' :: rest) = [] :: pySplitlines rest :=
  pySplitlines_cons_break rest (by decide) (by decide)

/-- `splitlines` of a nonempty text is nonempty. -/
theorem pySplitlines_ne_nil : ∀ {z : List Char}, z ≠ [] →
    pySplitlines z ≠ []
  | [], hz => absurd rfl hz
  | c :: rest, _ => by
    by_cases hb : isLineBreak c = true
    · by_cases hc : c = '\x0d'
      · subst hc
        unfold pySplitlines
        simp only [pslAux]
        simp
      · rw [pySplitlines_cons_break rest hb hc]
        simp
    · rw [pySplitlines_cons_nb rest (by simpa using hb)]
      split <;> simp

/-- `splitlines` of a break-free text is the single line itself. -/
theorem pySplitlines_nonbreak : ∀ {z : List Char},
    (∀ c ∈ z, isLineBreak c = false) →
    pySplitlines z = if z.isEmpty then [] else [z]
  | [], _ => rfl
  | c :: rest, h => by
    have hc := h c (by simp)
    have hr : ∀ d ∈ rest, isLineBreak d = false := fun d hd => h d (by simp [hd])
    rw [pySplitlines_cons_nb rest hc, pySplitlines_nonbreak hr]
    cases rest <;> simp

/-- `splitlines` after a break-free first line. -/
theorem pySplitlines_append_nl {u : List Char} (v : List Char)
    (hu : ∀ c ∈ u, isLineBreak c = false) :
    pySplitlines (u ++ '\n' :: v) = u :: pySplitlines v := by
  induction u with
  | nil => simpa using pySplitlines_nl v
  | cons c u' ih =>
    have hc := hu c (by simp)
    have hu' : ∀ d ∈ u', isLineBreak d = false := fun d hd => hu d (by simp [hd])
    rw [List.cons_append, pySplitlines_cons_nb _ hc, ih hu']

/-- For text whose only break character is `\n`, `splitlines`
distributes over an internal newline. -/
theorem pySplitlines_split_nl {x : List Char} (v : List Char)
    (hx : ∀ c ∈ x, isLineBreak c = true → c = '\n') :
    pySplitlines (x ++ '\n' :: v) =
      pySplitlines (x ++ ['\n']) ++ pySplitlines v := by
  induction x with
  | nil =>
    rw [List.nil_append, pySplitlines_nl, List.nil_append, pySplitlines_nl]
    rfl
  | cons c x' ih =>
    have hx' : ∀ d ∈ x', isLineBreak d = true → d = '\n' := fun d hd =>
      hx d (by simp [hd])
    by_cases hb : isLineBreak c = true
    · have hcn : c = '\n' := hx c (by simp) hb
      subst hcn
      rw [List.cons_append, pySplitlines_nl, ih hx', List.cons_append,
        pySplitlines_nl]
      rfl
    · have hb' : isLineBreak c = false := by simpa using hb
      rw [List.cons_append, pySplitlines_cons_nb _ hb', ih hx',
        List.cons_append, pySplitlines_cons_nb _ hb']
      rcases hA : pySplitlines (x' ++ ['\n']) with _ | ⟨l, ls⟩
      · exact absurd hA (pySplitlines_ne_nil (by simp))
      · simp

/-- `join` of a two-or-more-line list. -/
theorem pyJoinNL_cons (l : List Char) (ls : List (List Char)) (h : ls ≠ []) :
    pyJoinNL (l :: ls) = l ++ '\n' :: pyJoinNL ls := by
  rcases ls with _ | ⟨a, ls'⟩
  · exact absurd rfl h
  · rfl

/-- `join` inverts `splitlines` on newline-only text, up to one trailing
newline. -/
theorem pyJoinNL_splitlines : ∀ {z : List Char},
    (∀ c ∈ z, isLineBreak c = true → c = '\n') →
    pyJoinNL (pySplitlines z) =
      if z.getLast? = some '\n' then z.dropLast else z
  | [], _ => rfl
  | c :: z', hz => by
    have hz' : ∀ d ∈ z', isLineBreak d = true → d = '\n' := fun d hd =>
      hz d (by simp [hd])
    have ih := pyJoinNL_splitlines hz'
    by_cases hb : isLineBreak c = true
    · have hcn : c = '\n' := hz c (by simp) hb
      subst hcn
      rw [pySplitlines_nl]
      rcases z' with _ | ⟨d, r⟩
      · rfl
      · rw [pyJoinNL_cons _ _ (pySplitlines_ne_nil (by simp)), ih]
        rw [List.getLast?_cons_cons, List.dropLast_cons₂]
        split <;> simp
    · have hb' : isLineBreak c = false := by simpa using hb
      have hcn : c ≠ '\n' := by
        intro hEq
        subst hEq
        exact absurd hb' (by decide)
      rw [pySplitlines_cons_nb _ hb']
      rcases hA : pySplitlines z' with _ | ⟨l, ls⟩
      · have hznil : z' = [] := by
          by_contra hne
          exact pySplitlines_ne_nil hne hA
        subst hznil
        simp [pyJoinNL, hcn]
      · have hzne : z' ≠ [] := by
          intro h
          subst h
          simp [pySplitlines, pslAux] at hA
        have hjoin : pyJoinNL ((c :: l) :: ls) = c :: pyJoinNL (l :: ls) := by
          rcases ls with _ | ⟨a, ls'⟩
          · rfl
          · rfl
        rw [hjoin, ← hA, ih]
        rcases z' with _ | ⟨d, r⟩
        · exact absurd rfl hzne
        · rw [List.getLast?_cons_cons, List.dropLast_cons₂]
          split <;> simp

/-! ### C8: handle release on every exit path -/

/-- The page loop never holds the document handle. -/
theorem rasterLoop_doc_not_leaked {α : Type} (s : ℚ) (q : ℕ)
    (rf sf : ℕ → Bool) :
    ∀ (pages : List α) (idx : ℕ),
      RasterHandle.doc ∉ (rasterLoop s q rf sf idx pages).2
  | [], _ => by simp [rasterLoop]
  | p :: rest, idx => by
    have ih := rasterLoop_doc_not_leaked s q rf sf rest (idx + 1)
    unfold rasterLoop
    rcases hrec : rasterLoop s q rf sf (idx + 1) rest with ⟨res, hs⟩
    rw [hrec] at ih
    cases res <;> by_cases h1 : rf idx = true <;>
      by_cases h2 : sf idx = true <;> simp_all

/-- When no save/encode step raises, the loop closes every handle it
opens. -/
theorem rasterLoop_no_leak {α : Type} (s : ℚ) (q : ℕ) (rf sf : ℕ → Bool)
    (hsf : ∀ i, sf i = false) :
    ∀ (pages : List α) (idx : ℕ), (rasterLoop s q rf sf idx pages).2 = []
  | [], _ => by simp [rasterLoop]
  | p :: rest, idx => by
    have ih := rasterLoop_no_leak s q rf sf hsf rest (idx + 1)
    unfold rasterLoop
    rcases hrec : rasterLoop s q rf sf (idx + 1) rest with ⟨res, hs⟩
    rw [hrec] at ih
    cases res <;> by_cases h1 : rf idx = true <;> simp_all [hsf idx]

/-- On a failure-free run the loop renders every page in order. -/
theorem rasterLoop_ok {α : Type} (s : ℚ) (q : ℕ) (rf sf : ℕ → Bool)
    (hrf : ∀ i, rf i = false) (hsf : ∀ i, sf i = false) :
    ∀ (pages : List α) (idx : ℕ),
      rasterLoop s q rf sf idx pages =
        (.ok (pages.map (fun p => ⟨p, s, q⟩)), [])
  | [], _ => by simp [rasterLoop]
  | p :: rest, idx => by
    have ih := rasterLoop_ok s q rf sf hrf hsf rest (idx + 1)
    unfold rasterLoop
    rw [hrf idx, hsf idx, ih]
    simp

/-- C8 (amended): the `finally` block releases the document handle on
every exit path; all per-page handles are released whenever no encoding
step raises; and on a failure-free run the function returns exactly the
rasterized pages.  (An exception during encoding leaks that page's PIL
image and buffer handles — see the counterexample.) -/
theorem raster_handle_release_amended {α : Type} (pdf : List α)
    (max_pages : Option ℤ) (rf sf : ℕ → Bool) :
    RasterHandle.doc ∉ (rasterExec pdf max_pages rf sf).leaked ∧
    ((∀ i, sf i = false) → (rasterExec pdf max_pages rf sf).leaked = []) ∧
    ((∀ i, rf i = false) → (∀ i, sf i = false) →
      (rasterExec pdf max_pages rf sf).result =
        .ok (pdf_bytes_to_base64_images pdf max_pages)) := by
  refine ⟨?_, fun hsf => ?_, fun hrf hsf => ?_⟩
  · exact rasterLoop_doc_not_leaked _ _ rf sf _ 0
  · exact rasterLoop_no_leak _ _ rf sf hsf _ 0
  · show (rasterLoop _ _ rf sf 0 _).1 = _
    rw [rasterLoop_ok _ _ rf sf hrf hsf _ 0]
    rfl

/-- Witness for C8's amended statement: a failure-free 2-page run leaks
nothing and returns the images. -/
theorem raster_handle_release_witness :
    (rasterExec ([0, 1] : List ℕ) (some 10) (fun _ => false)
        (fun _ => false)).leaked = [] ∧
    (rasterExec ([0, 1] : List ℕ) (some 10) (fun _ => false)
        (fun _ => false)).result =
      .ok (pdf_bytes_to_base64_images [0, 1] (some 10)) :=
  ⟨(raster_handle_release_amended [0, 1] (some 10) _ _).2.1 (fun _ => rfl),
   (raster_handle_release_amended [0, 1] (some 10) _ _).2.2 (fun _ => rfl)
     (fun _ => rfl)⟩

/-- Counterexample to C8 as stated: when encoding page 0 raises, the
call propagates the exception with that page's PIL image and buffer
handles still open (only the document handle is closed by the
`finally`). -/
theorem raster_encode_leak_counterexample :
    (rasterExec ([0] : List ℕ) (some 10) (fun _ => false)
        (fun _ => true)).result = .error () ∧
    (rasterExec ([0] : List ℕ) (some 10) (fun _ => false)
        (fun _ => true)).leaked = [.pil 0, .buf 0] ∧
    (rasterExec ([0] : List ℕ) (some 10) (fun _ => false)
        (fun _ => true)).leaked ≠ [] :=
  ⟨rfl, rfl, by decide⟩

/-! ### Head lemmas about the JSON parser -/

/-- `json.loads` rejects the empty string. -/
theorem jsonParseL_nil : jsonParseL [] = .error "Expecting value" := rfl

/-- `json.loads` rejects any text whose first character is a backtick:
no JSON value starts with one. -/
theorem jsonParseL_backtick (cs : List Char) :
    jsonParseL ('\x60' :: cs) = .error "Expecting value" := by
  have hskip : skipJsonWs ('\x60' :: cs) = '\x60' :: cs :=
    List.dropWhile_cons_of_neg (by decide)
  unfold jsonParseL
  have hlen : ('\x60' :: cs).length + 1 = (cs.length + 1) + 1 := by simp
  rw [hlen]
  simp only [parseValue]
  rw [hskip]
  dsimp only
  rw [if_neg (by decide), if_neg (by decide), if_neg (by decide),
    if_neg (by decide), if_neg (by decide), if_neg (by decide),
    if_neg (by decide)]

/-- A fence-prefixed text is rejected by `json.loads`. -/
theorem jsonParseL_fence_prefixed {s : List Char}
    (h : FENCE.isPrefixOf s = true) :
    jsonParseL s = .error "Expecting value" := by
  rcases s with _ | ⟨c, rest⟩
  · exact jsonParseL_nil
  · have hc : c = '\x60' := by
      have := List.isPrefixOf_iff_prefix.mp h
      rcases this with ⟨t, ht⟩
      have : '\x60' :: ('\x60' :: '\x60' :: t) = c :: rest := ht
      exact (List.cons.injEq _ _ _ _ ▸ this).1.symm
    subst hc
    exact jsonParseL_backtick rest

/-! ### C9: fence-only responses fail as empty, not as malformed -/

/-- C9: a model response consisting only of fence lines — a single
fence line, or a fence line followed by a closing fence line — is
rejected with the EmptyResponse error (never MalformedJSON), because
fences are stripped before the emptiness check. -/
theorem fence_only_response_is_empty (a b : List Char)
    (ha : ∀ c ∈ a, isLineBreak c = false)
    (hb : ∀ c ∈ b, isLineBreak c = false)
    (hbf : FENCE.isPrefixOf (pyStrip b) = true) :
    parse_model_response (FENCE ++ a) = .error .emptyResponse ∧
    parse_model_response (FENCE ++ a ++ '\n' :: b) = .error .emptyResponse := by
  constructor
  · have ha' : ∀ c ∈ pyRStrip a, isLineBreak c = false := fun c hc =>
      ha c (mem_pyRStrip hc)
    have hnb : ∀ c ∈ FENCE ++ pyRStrip a, isLineBreak c = false := by
      intro c hc
      rcases List.mem_append.mp hc with h | h
      · fin_cases h <;> decide
      · exact ha' c h
    have hsplit : pySplitlines (FENCE ++ pyRStrip a) = [FENCE ++ pyRStrip a] := by
      rw [pySplitlines_nonbreak hnb]
      simp [FENCE]
    unfold parse_model_response preprocessResponse
    rw [pyStrip_fence_append, if_pos (fence_isPrefixOf_append _), hsplit]
    rw [show dropOpenFence [FENCE ++ pyRStrip a] = [] from by
      simp [dropOpenFence, pyLStrip_fence_append, fence_isPrefixOf_append]]
    rfl
  · have hbne : pyRStrip b ≠ [] := by
      intro h
      rw [pyStrip, h] at hbf
      exact absurd hbf (by decide)
    have h1 : pyStrip (FENCE ++ a ++ '\n' :: b) =
        FENCE ++ (a ++ '\n' :: pyRStrip b) := by
      have e1 : FENCE ++ a ++ '\n' :: b = (FENCE ++ a ++ ['\n']) ++ b := by
        simp
      rw [pyStrip, e1, pyRStrip_append_of_ne _ _ hbne]
      have e2 : (FENCE ++ a ++ ['\n']) ++ pyRStrip b =
          FENCE ++ (a ++ '\n' :: pyRStrip b) := by
        simp
      rw [e2, pyLStrip_fence_append]
    have hua : ∀ c ∈ FENCE ++ a, isLineBreak c = false := by
      intro c hc
      rcases List.mem_append.mp hc with h | h
      · fin_cases h <;> decide
      · exact ha c h
    have hb' : ∀ c ∈ pyRStrip b, isLineBreak c = false := fun c hc =>
      hb c (mem_pyRStrip hc)
    have hsplit : pySplitlines (FENCE ++ (a ++ '\n' :: pyRStrip b)) =
        (FENCE ++ a) :: [pyRStrip b] := by
      have e3 : FENCE ++ (a ++ '\n' :: pyRStrip b) =
          (FENCE ++ a) ++ '\n' :: pyRStrip b := by
        simp
      rw [e3, pySplitlines_append_nl _ hua, pySplitlines_nonbreak hb']
      simp [hbne]
    unfold parse_model_response preprocessResponse
    rw [h1, if_pos (fence_isPrefixOf_append _), hsplit]
    rw [show dropOpenFence ((FENCE ++ a) :: [pyRStrip b]) = [pyRStrip b] from by
      simp [dropOpenFence, pyLStrip_fence_append, fence_isPrefixOf_append]]
    rw [show dropCloseFence [pyRStrip b] = [] from by
      simp [dropCloseFence, pyStrip_pyRStrip, hbf]]
    rfl

/-- Witness for C9: the response made of the two lines with a `json`
language tag and a bare closing fence is rejected as empty. -/
theorem fence_only_response_is_empty_witness :
    parse_model_response ("```json".data ++ '\n' :: "```".data) =
      .error .emptyResponse :=
  (fence_only_response_is_empty "json".data "```".data (by decide) (by decide)
    (by decide)).2

/-! ### C6: malformed JSON carries the diagnostic and a 500-char snippet -/

/-- C6: when the trimmed, fence-stripped text is nonempty but not valid
JSON, parsing fails with the MalformedJSON error carrying the JSON
parser's diagnostic and exactly the first 500 characters of the
offending text (all of it when shorter), and no success is returned. -/
theorem parse_malformed_json_snippet (raw : List Char) (e : String)
    (hne : preprocessResponse raw ≠ [])
    (he : jsonParseL (preprocessResponse raw) = .error e) :
    parse_model_response raw =
      .error (.malformedJSON e ⟨(preprocessResponse raw).take 500⟩) ∧
    ((preprocessResponse raw).length ≤ 500 →
      (preprocessResponse raw).take 500 = preprocessResponse raw) := by
  constructor
  · unfold parse_model_response
    rw [if_neg (by simpa [List.isEmpty_iff] using hne), he]
  · intro h
    exact List.take_of_length_le h

/-- Witness for C6 at the spec's own example `parse("{invalid")`. -/
theorem parse_malformed_json_snippet_witness :
    parse_model_response "\x7binvalid".data =
      .error (.malformedJSON "Expecting property name enclosed in double quotes"
        ⟨(preprocessResponse "\x7binvalid".data).take 500⟩) :=
  (parse_malformed_json_snippet "\x7binvalid".data
    "Expecting property name enclosed in double quotes"
    (by decide) (by rfl)).1

/-! ### C4: fence wrapping does not change the parse -/

/-- A response `t` wrapped in triple-backtick fences, with a (possibly
empty) language tag `lang` on the opening fence. -/
def mkFenced (lang t : List Char) : List Char :=
  FENCE ++ lang ++ '\n' :: t ++ '\n' :: FENCE

/-- C4 (amended): for a JSON text `t` whose line boundaries are all
ordinary newlines, and any break-free language tag (or none), parsing
the fenced response yields the same result as parsing the bare
response, namely the parsed JSON value.  A JSON text carrying a raw NEL
or U+2028/U+2029 inside a string literal falls outside this rule — see
the counterexample — because `splitlines` re-splits at those
characters. -/
theorem fenced_and_plain_parse_alike (t lang : List Char) (v : Json)
    (ht : jsonParseL (pyStrip t) = .ok v)
    (hnl : ∀ c ∈ t, isLineBreak c = true → c = '\n')
    (hlang : ∀ c ∈ lang, isLineBreak c = false) :
    parse_model_response (mkFenced lang t) = .ok v ∧
    parse_model_response t = .ok v := by
  have hne : pyStrip t ≠ [] := by
    intro h
    rw [h, jsonParseL_nil] at ht
    cases ht
  constructor
  · have hA : pyStrip (mkFenced lang t) = mkFenced lang t := by
      have e1 : mkFenced lang t =
          FENCE ++ (lang ++ '\n' :: t ++ '\n' :: FENCE) := by
        simp [mkFenced]
      rw [e1, pyStrip_fence_append]
      have e2 : lang ++ '\n' :: t ++ '\n' :: FENCE =
          (lang ++ '\n' :: t ++ ['\n']) ++ FENCE := by
        simp
      rw [e2, pyRStrip_append_of_ne _ _ (by decide)]
      rfl
    have hu : ∀ c ∈ FENCE ++ lang, isLineBreak c = false := by
      intro c hc
      rcases List.mem_append.mp hc with h | h
      · fin_cases h <;> decide
      · exact hlang c h
    have hlines : pySplitlines (mkFenced lang t) =
        (FENCE ++ lang) :: (pySplitlines (t ++ ['\n']) ++ [FENCE]) := by
      have e3 : mkFenced lang t =
          (FENCE ++ lang) ++ '\n' :: (t ++ '\n' :: FENCE) := by
        simp [mkFenced]
      have e4 : t ++ '\n' :: FENCE = t ++ '\n' :: FENCE := rfl
      rw [e3, pySplitlines_append_nl _ hu, pySplitlines_split_nl _ hnl]
      rw [show pySplitlines FENCE = [FENCE] from rfl]
    have hjoin : pyJoinNL (pySplitlines (t ++ ['\n'])) = t := by
      have hz : ∀ c ∈ t ++ ['\n'], isLineBreak c = true → c = '\n' := by
        intro c hc hb
        rcases List.mem_append.mp hc with h | h
        · exact hnl c h hb
        · simpa using h
      rw [pyJoinNL_splitlines hz, List.getLast?_concat, if_pos rfl,
        List.dropLast_concat]
    have hpf : FENCE.isPrefixOf (mkFenced lang t) = true := by
      rw [show mkFenced lang t =
        FENCE ++ (lang ++ '\n' :: t ++ '\n' :: FENCE) from by simp [mkFenced]]
      exact fence_isPrefixOf_append _
    unfold parse_model_response preprocessResponse
    rw [hA, if_pos hpf, hlines]
    rw [show dropOpenFence
        ((FENCE ++ lang) :: (pySplitlines (t ++ ['\n']) ++ [FENCE])) =
        pySplitlines (t ++ ['\n']) ++ [FENCE] from by
      simp [dropOpenFence, pyLStrip_fence_append, fence_isPrefixOf_append]]
    rw [show dropCloseFence (pySplitlines (t ++ ['\n']) ++ [FENCE]) =
        pySplitlines (t ++ ['\n']) from by
      simp [dropCloseFence, List.getLast?_concat,
        show pyStrip FENCE = FENCE from rfl,
        show FENCE.isPrefixOf FENCE = true from by decide]]
    rw [hjoin]
    rw [if_neg (by simpa [List.isEmpty_iff] using hne), ht]
  · have hnf : FENCE.isPrefixOf (pyStrip t) = false := by
      cases hpf : FENCE.isPrefixOf (pyStrip t)
      · rfl
      · rw [jsonParseL_fence_prefixed hpf] at ht
        cases ht
    have hpre : preprocessResponse t = pyStrip t := by
      unfold preprocessResponse
      rw [if_neg (by simp [hnf])]
    unfold parse_model_response
    rw [hpre, if_neg (by simpa [List.isEmpty_iff] using hne), ht]

/-- Witness for C4's amended statement at the spec's own example. -/
theorem fenced_and_plain_parse_alike_witness :
    parse_model_response (mkFenced "json".data "\x7b\"a\":1\x7d".data) =
      .ok (.obj [("a", .num "1")]) ∧
    parse_model_response "\x7b\"a\":1\x7d".data =
      .ok (.obj [("a", .num "1")]) :=
  fenced_and_plain_parse_alike "\x7b\"a\":1\x7d".data "json".data
    (.obj [("a", .num "1")]) (by rfl) (by decide) (by decide)

/-- A valid JSON text containing a raw NEL (U+0085) inside its string
literal. -/
def nelJson : List Char := ['"', 'a', '\x85', 'b', '"']

/-- Counterexample to C4 as stated: `nelJson` is a JSON text (its bare
parse succeeds), but wrapping it in fences changes the result —
`splitlines` splits at the NEL inside the string literal and the
re-join replaces it by a newline, which strict JSON rejects, so the
fenced parse fails with MalformedJSON instead. -/
theorem fence_wrapping_changes_parse_counterexample :
    jsonParseL (pyStrip nelJson) = .ok (.str "a\x85b") ∧
    parse_model_response nelJson = .ok (.str "a\x85b") ∧
    parse_model_response (mkFenced "json".data nelJson) =
      .error (.malformedJSON "Invalid control character at" "\"a\nb\"") ∧
    parse_model_response (mkFenced "json".data nelJson) ≠
      parse_model_response nelJson := by
  refine ⟨rfl, rfl, rfl, ?_⟩
  intro h
  rw [show parse_model_response (mkFenced "json".data nelJson) =
      .error (.malformedJSON "Invalid control character at" "\"a\nb\"")
      from rfl,
    show parse_model_response nelJson = .ok (.str "a\x85b") from rfl] at h
  exact Except.noConfusion h

end Extractor
